import Mathlib

/-!
Verification of the OBO (On-Behalf-Of) token broker of `foundry-obo`
(`src/agent-with-local-tools/obo.py` and `query_data.py`).

The Python code is shallowly embedded: each Python function becomes a Lean
function over explicit environments that model its external collaborators
(the `requests` HTTP calls, the PyJWT library, the MSAL confidential client,
the `httpx` downstream POST).  Network side effects are made observable as
explicit call-count traces returned alongside each result, so that claims
about "no network call is made" become provable equations on the trace.
-/

namespace FoundryObo

/-- Equality of `Except` values is decidable when it is on both sides;
needed to evaluate the embedded functions on concrete inputs. -/
instance exceptDecEq {ε α : Type} [DecidableEq ε] [DecidableEq α] :
    DecidableEq (Except ε α) := fun a b =>
  match a, b with
  | .error e, .error f =>
    match decEq e f with
    | .isTrue h => .isTrue (h ▸ rfl)
    | .isFalse h => .isFalse (fun hh => h (Except.error.inj hh))
  | .error _, .ok _ => .isFalse (fun hh => Except.noConfusion hh)
  | .ok _, .error _ => .isFalse (fun hh => Except.noConfusion hh)
  | .ok x, .ok y =>
    match decEq x y with
    | .isTrue h => .isTrue (h ▸ rfl)
    | .isFalse h => .isFalse (fun hh => h (Except.ok.inj hh))

/-- `TokenValidationError` from `obo.py` ("Raised when token validation fails"). -/
structure TokenValidationError where
  msg : String
deriving Repr, DecidableEq

/-- `OboTokenError` from `obo.py` ("Raised when OBO token acquisition fails"). -/
structure OboTokenError where
  msg : String
deriving Repr, DecidableEq

/-- Outcome of a `requests.get` call: either a `requests.RequestException`
(HTTP failure / timeout) with its message, or a parsed JSON body. -/
inductive HttpResult (α : Type) where
  | failure (msg : String)
  | success (body : α)
deriving Repr, DecidableEq

/-- The fields of the OpenID discovery document that `obo.py` reads:
`config.get("jwks_uri")` is the only field consulted. -/
structure OpenIdDoc where
  jwks_uri : Option String
deriving Repr, DecidableEq

/-- One entry of the JWKS key set.  `obo.py` reads only `key.get("kid")` and
then feeds the whole entry to `jwt.algorithms.RSAAlgorithm.from_jwk`; the RSA
public-key material itself stays abstract (signature verification against it
is modelled by the token's `sigOk` oracle, see `TokenData`). -/
structure Jwk where
  kid : Option String
deriving Repr, DecidableEq

/-- The JWKS response body; `obo.py` reads `.get("keys", [])` from it. -/
structure JwksDoc where
  keys : Option (List Jwk)
deriving Repr, DecidableEq

/-- The identity provider as seen through `requests.get`: the discovery
document for the configured tenant, and the JWKS document served at each URI. -/
structure Net where
  discovery : HttpResult OpenIdDoc
  jwks : String → HttpResult JwksDoc

/-- Count of outbound HTTP GETs performed by the key-retrieval path. -/
structure NetTrace where
  discoveryFetches : Nat
  jwksFetches : Nat
deriving Repr, DecidableEq

/-- The value `_get_openid_config` returns: the discovery document with the
JWKS body stored under `config["signing_keys"]`. -/
structure OpenIdConfig where
  doc : OpenIdDoc
  signing_keys : JwksDoc
deriving Repr, DecidableEq

/-- Embedding of `_get_openid_config` (obo.py lines 32-67): GET the discovery
document, fail with `TokenValidationError` on a `RequestException`; require a
`jwks_uri` field (else `TokenValidationError`); GET the JWKS and store it as
`signing_keys`.  The trace records each `requests.get` performed. -/
def get_openid_config (net : Net) :
    Except TokenValidationError OpenIdConfig × NetTrace :=
  match net.discovery with
  | .failure e =>
      (.error ⟨"Failed to retrieve OpenID configuration: " ++ e⟩, ⟨1, 0⟩)
  | .success doc =>
      match doc.jwks_uri with
      | none => (.error ⟨"JWKS URI not found in OpenID configuration"⟩, ⟨1, 0⟩)
      | some uri =>
          match net.jwks uri with
          | .failure e =>
              (.error ⟨"Failed to retrieve OpenID configuration: " ++ e⟩, ⟨1, 1⟩)
          | .success jwksDoc => (.ok ⟨doc, jwksDoc⟩, ⟨1, 1⟩)

/-- The decoded content of a JWT as PyJWT sees it, produced by the parse
oracle from the raw token string.  `sigOk key` abstracts RSA signature
verification of this token against the public key material of `key`
(the result of `RSAAlgorithm.from_jwk`).  `iatOk` is whether the `iat`
claim, if present, is numeric (PyJWT raises `InvalidIssuedAtError`
otherwise).  `aud` is the audience claim normalised to a list, as PyJWT
does for string audiences. -/
structure TokenData where
  kid : Option String
  alg : String
  sigOk : Jwk → Bool
  iatOk : Bool
  nbf : Option Int
  exp : Option Int
  aud : Option (List String)
  iss : Option String
  oid : Option String

/-- Outcome of `jwt.decode`: success with the validated payload, an
`ExpiredSignatureError`, or any other `InvalidTokenError` subclass. -/
inductive DecodeOutcome where
  | ok (td : TokenData)
  | expiredSignature
  | invalidToken (msg : String)

/-- Embedding of `jwt.decode(token, key, algorithms, audience, issuer,
options)` as called in `validate_token` with all of `verify_signature`,
`verify_exp`, `verify_iat`, `verify_aud`, `verify_iss` enabled: reject a
disallowed `alg`, a failing signature, a non-numeric `iat`, a future `nbf`;
raise `ExpiredSignatureError` when `exp` has passed; require the audience
parameter to be among the `aud` claim values and the `iss` claim to be a
member of the issuer list. -/
def jwtDecode (now : Int) (td : TokenData) (key : Jwk) (algorithms : List String)
    (audience : String) (issuers : List String) : DecodeOutcome :=
  if ¬ td.alg ∈ algorithms then
    .invalidToken "The specified alg value is not allowed"
  else if ¬ td.sigOk key then
    .invalidToken "Signature verification failed"
  else if ¬ td.iatOk then
    .invalidToken "Issued At claim is not an integer"
  else if td.nbf.any (fun n => now < n) then
    .invalidToken "The token is not yet valid"
  else if td.exp.any (fun e => e ≤ now) then
    .expiredSignature
  else
    match td.aud with
    | none => .invalidToken "Token is missing the aud claim"
    | some audList =>
        if ¬ audience ∈ audList then
          .invalidToken "Audience doesnt match"
        else
          match td.iss with
          | none => .invalidToken "Token is missing the iss claim"
          | some iss =>
              if ¬ iss ∈ issuers then .invalidToken "Invalid issuer"
              else .ok td

/-- The environment `validate_token` runs in: the configured tenant and
client ids, the identity provider reachable over HTTP, the PyJWT parse
oracle (`jwt.get_unverified_header` plus payload parsing; `none` models a
`DecodeError` on a malformed token), and the current time used for the
`exp`/`nbf` checks. -/
structure ValidateEnv where
  tenant_id : String
  client_id : String
  net : Net
  parse : String → Option TokenData
  now : Int

/-- Python `str.strip()`: drop leading and trailing whitespace. -/
def trimChars (cs : List Char) : List Char :=
  ((cs.dropWhile Char.isWhitespace).reverse.dropWhile Char.isWhitespace).reverse

/-- The `"Bearer "`-prefix stripping shared by `validate_token` and
`get_obo_token`: `t.replace("Bearer ", "", 1).strip()` when `t` starts with
`"Bearer "` (the first occurrence replaced is then exactly the prefix),
else `t` unchanged (note: no `strip()` in that branch). -/
def stripBearer (t : String) : String :=
  if t.data.take 7 = "Bearer ".data then String.mk (trimChars (t.data.drop 7)) else t

/-- Embedding of `validate_token` (obo.py lines 70-174).  Returns the result
(`.ok (some oid)` on success, `.ok none` for a rejected token,
`.error` for the re-raised `TokenValidationError`) together with the
network trace of the key retrieval. -/
def validate_token (env : ValidateEnv) (bearer_token : String) :
    Except TokenValidationError (Option String) × NetTrace :=
  let token := stripBearer bearer_token
  if token = "" then (.ok none, ⟨0, 0⟩)
  else
    match get_openid_config env.net with
    | (.error e, tr) =>
        (.error ⟨"Token validation error: " ++ e.msg⟩, tr)
    | (.ok config, tr) =>
        let signing_keys := config.signing_keys.keys.getD []
        match env.parse token with
        | none => (.ok none, tr)
        | some td =>
            match signing_keys.find? (fun k => k.kid == td.kid) with
            | none => (.ok none, tr)
            | some key =>
                let expected_audience := "api://" ++ env.client_id
                let valid_issuers :=
                  ["https://login.microsoftonline.com/" ++ env.tenant_id ++ "/v2.0",
                   "https://sts.windows.net/" ++ env.tenant_id ++ "/"]
                match jwtDecode env.now td key ["RS256"] expected_audience valid_issuers with
                | .expiredSignature => (.ok none, tr)
                | .invalidToken _ => (.ok none, tr)
                | .ok decoded =>
                    match decoded.oid with
                    | none => (.ok none, tr)
                    | some o => if o = "" then (.ok none, tr) else (.ok (some o), tr)

/-- The `oid` extraction at the end of `validate_token` (obo.py lines
152-162): `decoded_token.get("oid")` followed by Python's falsy check
`if not oid`, under which a missing claim and an empty string both yield
a null return. -/
def oidResult : Option String → Option String
  | none => none
  | some s => if s = "" then none else some s

/-- Outcome of `app.acquire_token_on_behalf_of(user_assertion, scopes)`:
either an exception raised during the call, or the result dictionary, of
which `get_obo_token` reads `"access_token"` and `"error_description"`. -/
inductive MsalResult where
  | raises (msg : String)
  | returns (access_token : Option String) (error_description : Option String)

/-- The MSAL collaborator of `get_obo_token`: construction of the
`ConfidentialClientApplication` (which can itself raise), and the
behaviour of `acquire_token_on_behalf_of` on a given stripped user
assertion and scope list. -/
structure MsalEnv where
  construct : Except String Unit
  acquire : String → List String → MsalResult

/-- Count of MSAL client constructions and OBO grant requests performed. -/
structure OboTrace where
  clientConstructions : Nat
  acquireCalls : Nat
deriving Repr, DecidableEq

/-- Embedding of `get_obo_token` (obo.py lines 177-239): strip the
`"Bearer "` prefix; fail with `OboTokenError` on an empty stripped token or
empty scopes before constructing the client; construct the MSAL app and run
the OBO grant; on a result lacking `access_token`, fail with `OboTokenError`
carrying `error_description` (default `"Unknown error"`); wrap every other
exception in `OboTokenError`; on success return the access token. -/
def get_obo_token (msal : MsalEnv) (user_token : String) (scopes : List String) :
    Except OboTokenError String × OboTrace :=
  let token := stripBearer user_token
  if token = "" then
    (.error ⟨"Invalid user token: empty or whitespace"⟩, ⟨0, 0⟩)
  else if scopes = [] then
    (.error ⟨"Scopes are required"⟩, ⟨0, 0⟩)
  else
    match msal.construct with
    | .error e => (.error ⟨"Failed to acquire OBO token: " ++ e⟩, ⟨1, 0⟩)
    | .ok _ =>
        match msal.acquire token scopes with
        | .raises e =>
            (.error ⟨"Failed to acquire OBO token: " ++ e⟩, ⟨1, 1⟩)
        | .returns none errdesc =>
            (.error ⟨"Failed to acquire OBO token: " ++ errdesc.getD "Unknown error"⟩,
             ⟨1, 1⟩)
        | .returns (some accessToken) _ => (.ok accessToken, ⟨1, 1⟩)

/-- An exception escaping `validate_and_get_obo_token`: either the
`TokenValidationError` propagated from `validate_token` or the
`OboTokenError` re-raised from `get_obo_token`. -/
inductive OboFlowError where
  | validation (e : TokenValidationError)
  | obo (e : OboTokenError)
deriving Repr, DecidableEq

/-- The observable outcome of one `validate_and_get_obo_token` call: the
returned pair (or escaped exception), the key-retrieval network trace, and
whether / how `get_obo_token` was invoked. -/
structure FlowOutcome where
  result : Except OboFlowError (Option String × Option String)
  net : NetTrace
  exchangerInvoked : Bool
  obo : OboTrace
deriving DecidableEq

/-- Embedding of `validate_and_get_obo_token` (obo.py lines 242-289): call
`validate_token` on the authorization header; on `None` return
`(None, None)`; otherwise call `get_obo_token` with the original
authorization header and the requested scopes, re-raising `OboTokenError`
unchanged, and return `(user_oid, resource_token)`. -/
def validate_and_get_obo_token (env : ValidateEnv) (msal : MsalEnv)
    (authorization_header : String) (scopes : List String) : FlowOutcome :=
  match validate_token env authorization_header with
  | (.error e, tr) => ⟨.error (.validation e), tr, false, ⟨0, 0⟩⟩
  | (.ok none, tr) => ⟨.ok (none, none), tr, false, ⟨0, 0⟩⟩
  | (.ok (some user_oid), tr) =>
      match get_obo_token msal authorization_header scopes with
      | (.error e, otr) => ⟨.error (.obo e), tr, true, otr⟩
      | (.ok resource_token, otr) =>
          ⟨.ok (some user_oid, some resource_token), tr, true, otr⟩

/-- The parsed JSON body of a 200 response from the Azure Function, as read
by `query_data_on_behalf_of_user`: `result.get("Success")` (falsy when
absent), `result.get("ItemCount", 0)`, `result.get("Data", [])`,
`result.get("errorMessage", "Unknown error")`. -/
structure FuncResponse where
  success : Bool
  itemCount : Nat
  data : List String
  errorMessage : Option String
deriving Repr, DecidableEq

/-- Outcome of the `httpx` POST to the Azure Function: a timeout, a
connection error, any other exception, or an HTTP response with a status
code, a JSON body (read only on status 200) and a raw text. -/
inductive HttpxOutcome where
  | timeout
  | connectError
  | otherError (msg : String)
  | response (status : Nat) (body : FuncResponse) (text : String)

/-- A value returned by `query_data_on_behalf_of_user`: either the plain
error string for an invalid container, or a dict — `{"success": True,
"container": …, "itemCount": …, "data": …}` on success, `{"success": False,
"error": …}` on failure. -/
inductive ToolReturn where
  | str (s : String)
  | ok (container : String) (itemCount : Nat) (data : List String)
  | err (error : String)
deriving Repr, DecidableEq

/-- The environment of `query_data_on_behalf_of_user`: configuration,
the validator/exchanger collaborators, the downstream Azure Function, and
the module-global `_global_auth_header` slot. -/
structure QueryEnv where
  function_app_url : String
  obo_scope : String
  venv : ValidateEnv
  msal : MsalEnv
  http : HttpxOutcome
  global_auth_header : Option String

/-- Full observable trace of one `query_data_on_behalf_of_user` call. -/
structure QueryTrace where
  net : NetTrace
  exchangerInvoked : Bool
  obo : OboTrace
  httpPosts : Nat
deriving DecidableEq

/-- The empty trace: no validation, no exchange, no downstream POST. -/
def QueryTrace.none : QueryTrace := ⟨⟨0, 0⟩, false, ⟨0, 0⟩, 0⟩

/-- Embedding of `set_auth_header` (query_data.py lines 17-24): overwrite
the module-global `_global_auth_header` with the given value. -/
def set_auth_header (auth_header : String) (_old : Option String) : Option String :=
  some auth_header

/-- Embedding of `query_data_on_behalf_of_user` (query_data.py lines
27-149): reject a container outside {Finance, HR, Sales} with a plain error
string before anything else; fall back to the global auth header when
`bearer_token` is `None` and fail with a `success: False` dict when that is
also `None`; then validate-and-exchange (exceptions propagate — the call is
outside the `try`), POST to the Azure Function, and map the response status
to the structured results of the source. -/
def query_data_on_behalf_of_user (qenv : QueryEnv) (container : String)
    (_query : Option String) (bearer_token : Option String) :
    Except OboFlowError ToolReturn × QueryTrace :=
  if ¬ container ∈ ["Finance", "HR", "Sales"] then
    (.ok (.str ("Error: Invalid container '" ++ container ++
        "'. Must be one of: Finance, HR, Sales")), QueryTrace.none)
  else
    let bt := match bearer_token with
      | none => qenv.global_auth_header
      | some b => some b
    match bt with
    | none => (.ok (.err "No authentication token provided"), QueryTrace.none)
    | some b =>
        match validate_and_get_obo_token qenv.venv qenv.msal b [qenv.obo_scope] with
        | ⟨.error e, tr, inv, otr⟩ => (.error e, ⟨tr, inv, otr, 0⟩)
        | ⟨.ok (_oid, _resource_token), tr, inv, otr⟩ =>
            let qtrace : QueryTrace := ⟨tr, inv, otr, 1⟩
            match qenv.http with
            | .timeout =>
                (.ok (.err "Request timeout: Azure Function did not respond in time"),
                 qtrace)
            | .connectError =>
                (.ok (.err ("Connection error: Could not connect to Azure Function at "
                    ++ qenv.function_app_url ++ "/api/containers/query"
                    ++ ". Make sure the function app is running.")), qtrace)
            | .otherError msg =>
                (.ok (.err ("Unexpected error: " ++ msg)), qtrace)
            | .response status body text =>
                if status = 200 then
                  if body.success then
                    (.ok (.ok container body.itemCount body.data), qtrace)
                  else
                    (.ok (.err (body.errorMessage.getD "Unknown error")), qtrace)
                else if status = 401 then
                  (.ok (.err "Unauthorized: Invalid or missing authentication token"),
                   qtrace)
                else if status = 403 then
                  (.ok (.err ("Forbidden: You do not have access to the " ++ container
                      ++ " container")), qtrace)
                else if status = 404 then
                  (.ok (.err ("Not found: Container '" ++ container
                      ++ "' does not exist")), qtrace)
                else
                  (.ok (.err ("HTTP " ++ toString status ++ ": " ++ text)), qtrace)

/-! ## Concrete fixtures used by witnesses and counterexamples -/

/-- A token that passes every check of `validate_token` under `envW`. -/
def tdW : TokenData :=
  { kid := some "k1", alg := "RS256",
    sigOk := fun k => k.kid == some "k1",
    iatOk := true, nbf := none, exp := some 100,
    aud := some ["api://client-1"],
    iss := some "https://login.microsoftonline.com/tenant-1/v2.0",
    oid := some "user-oid-1" }

/-- An identity provider serving one signing key with kid `"k1"`. -/
def netW : Net :=
  { discovery := .success ⟨some "https://jwks.example"⟩,
    jwks := fun u =>
      if u = "https://jwks.example" then .success ⟨some [⟨some "k1"⟩]⟩
      else .failure "404" }

/-- A validator environment in which the string `"tok1"` parses to `tdW`. -/
def envW : ValidateEnv :=
  { tenant_id := "tenant-1", client_id := "client-1", net := netW,
    parse := fun s => if s = "tok1" then some tdW else none,
    now := 50 }

/-- An MSAL collaborator that exchanges `"tok1"` for a downstream token. -/
def msalW : MsalEnv :=
  { construct := .ok (),
    acquire := fun t s =>
      if t = "tok1" ∧ s = ["scope-a"] then .returns (some "downstream-token") none
      else .raises "invalid assertion" }

/-- An MSAL collaborator whose token endpoint answers without an
`access_token`, supplying an `error_description`. -/
def msalFailsC6 : MsalEnv :=
  { construct := .ok (),
    acquire := fun _ _ => .returns none (some "consent required") }

/-- A validator environment whose identity provider serves only a key with
kid `"k2"`, so `tdW` (kid `"k1"`) matches no key. -/
def envC7 : ValidateEnv :=
  { tenant_id := "tenant-1", client_id := "client-1",
    net :=
      { discovery := .success ⟨some "https://jwks.example"⟩,
        jwks := fun u =>
          if u = "https://jwks.example" then .success ⟨some [⟨some "k2"⟩]⟩
          else .failure "404" },
    parse := fun s => if s = "tok1" then some tdW else none,
    now := 50 }

/-- A token identical to `tdW` except that its `oid` claim is the empty
string — still a present `oid` claim on the wire. -/
def tdC8 : TokenData :=
  { tdW with oid := some "" }

/-- A validator environment in which `"tok8"` parses to `tdC8`. -/
def envC8 : ValidateEnv :=
  { envW with parse := fun s => if s = "tok8" then some tdC8 else none }

/-- The tool environment: downstream Azure Function answering 200 with
three items; no global auth header set. -/
def qenvW : QueryEnv :=
  { function_app_url := "https://fn.example", obo_scope := "scope-a",
    venv := envW, msal := msalW,
    http := .response 200 ⟨true, 3, ["r1", "r2", "r3"], none⟩ "",
    global_auth_header := none }

/-! ## Helper lemmas -/

/-- Inversion of a successful `jwt.decode`: success forces every enabled
verification to have passed, and the returned payload is the token's. -/
theorem jwtDecode_ok_inv {now : Int} {td : TokenData} {key : Jwk}
    {algorithms : List String} {audience : String} {issuers : List String}
    {td' : TokenData}
    (h : jwtDecode now td key algorithms audience issuers = .ok td') :
    td' = td ∧ td.alg ∈ algorithms ∧ td.sigOk key = true ∧ td.iatOk = true ∧
    (∀ n, td.nbf = some n → ¬ now < n) ∧
    (∀ e, td.exp = some e → now < e) ∧
    (∃ l, td.aud = some l ∧ audience ∈ l) ∧
    (∃ i, td.iss = some i ∧ i ∈ issuers) := by
  unfold jwtDecode at h
  split_ifs at h with h1 h2 h3 h4 h5
  cases haud : td.aud with
  | none => rw [haud] at h; exact absurd h (by simp)
  | some l =>
    rw [haud] at h
    dsimp only at h
    split_ifs at h with h6
    cases hiss : td.iss with
    | none => rw [hiss] at h; exact absurd h (by simp)
    | some i =>
      rw [hiss] at h
      dsimp only at h
      split_ifs at h with h7
      refine ⟨(DecodeOutcome.ok.inj h).symm, h1, h2, h3, ?_, ?_,
        ⟨l, rfl, h6⟩, ⟨i, rfl, h7⟩⟩
      · intro n hn
        rw [hn] at h4
        simpa using h4
      · intro e he
        rw [he] at h5
        simpa [Int.not_le] using h5

/-- Inversion of a `validate_token` call that returned a subject: recovers
the successful key retrieval, the parsed token, the matched key and the
successful decode. -/
theorem validate_token_some_inv {env : ValidateEnv} {tok : String} {oid : String}
    (h : (validate_token env tok).fst = .ok (some oid)) :
    stripBearer tok ≠ "" ∧
    ∃ config td key,
      (get_openid_config env.net).fst = .ok config ∧
      env.parse (stripBearer tok) = some td ∧
      (config.signing_keys.keys.getD []).find? (fun k => k.kid == td.kid) = some key ∧
      jwtDecode env.now td key ["RS256"] ("api://" ++ env.client_id)
        ["https://login.microsoftonline.com/" ++ env.tenant_id ++ "/v2.0",
         "https://sts.windows.net/" ++ env.tenant_id ++ "/"] = .ok td ∧
      td.oid = some oid ∧ oid ≠ "" := by
  rcases hp : validate_token env tok with ⟨r, tr⟩
  rw [hp] at h
  simp only at h
  subst h
  unfold validate_token at hp
  dsimp only at hp
  split_ifs at hp with hempty
  · exact absurd hp (by simp)
  refine ⟨hempty, ?_⟩
  rcases hcfg : get_openid_config env.net with ⟨cfgr, ctr⟩
  rw [hcfg] at hp
  cases cfgr with
  | error e => exact absurd hp (by simp)
  | ok config =>
    dsimp only at hp
    refine ⟨config, ?_⟩
    cases hparse : env.parse (stripBearer tok) with
    | none => rw [hparse] at hp; exact absurd hp (by simp)
    | some td =>
      rw [hparse] at hp
      dsimp only at hp
      refine ⟨td, ?_⟩
      cases hfind : (config.signing_keys.keys.getD []).find?
          (fun k => k.kid == td.kid) with
      | none => rw [hfind] at hp; exact absurd hp (by simp)
      | some key =>
        rw [hfind] at hp
        dsimp only at hp
        refine ⟨key, rfl, rfl, rfl, ?_⟩
        cases hdec : jwtDecode env.now td key ["RS256"]
            ("api://" ++ env.client_id)
            ["https://login.microsoftonline.com/" ++ env.tenant_id ++ "/v2.0",
             "https://sts.windows.net/" ++ env.tenant_id ++ "/"] with
        | expiredSignature => rw [hdec] at hp; exact absurd hp (by simp)
        | invalidToken m => rw [hdec] at hp; exact absurd hp (by simp)
        | ok decoded =>
          rw [hdec] at hp
          dsimp only at hp
          obtain ⟨hdtd, -, -, -, -, -, -, -⟩ := jwtDecode_ok_inv hdec
          rw [hdtd] at hp
          refine ⟨by rw [hdtd], ?_⟩
          cases hoid : td.oid with
          | none => rw [hoid] at hp; exact absurd hp (by simp)
          | some o =>
            rw [hoid] at hp
            dsimp only at hp
            split_ifs at hp with ho
            · exact absurd hp (by simp)
            · simp only [Prod.mk.injEq, Except.ok.injEq, Option.some.injEq] at hp
              exact ⟨by rw [hp.1], hp.1 ▸ ho⟩

/-- `true` exactly on `Except.error`. -/
def exceptIsError {ε α : Type} : Except ε α → Bool
  | .error _ => true
  | .ok _ => false

/-- The situations in which signing-key retrieval fails: the discovery GET
fails, the discovery document lacks `jwks_uri`, or the JWKS GET fails. -/
def keyRetrievalFails (net : Net) : Bool :=
  match net.discovery with
  | .failure _ => true
  | .success doc =>
      match doc.jwks_uri with
      | none => true
      | some uri =>
          match net.jwks uri with
          | .failure _ => true
          | .success _ => false

/-- `_get_openid_config` raises exactly in the `keyRetrievalFails` cases. -/
theorem get_openid_config_isError (net : Net) :
    exceptIsError (get_openid_config net).fst = keyRetrievalFails net := by
  unfold get_openid_config keyRetrievalFails
  cases net.discovery with
  | failure e => rfl
  | success doc =>
      dsimp only
      cases doc.jwks_uri with
      | none => rfl
      | some uri =>
          dsimp only
          cases net.jwks uri <;> rfl

/-- `exceptIsError x = false` means `x` is a success value. -/
theorem exceptIsError_false {ε α : Type} {x : Except ε α}
    (h : exceptIsError x = false) : ∃ r, x = .ok r := by
  cases x with
  | error e => exact absurd h (by simp [exceptIsError])
  | ok r => exact ⟨r, rfl⟩

/-- `validate_token` raises exactly when the token is non-empty after
stripping and signing-key retrieval fails; every other outcome is a
returned value (`.ok`). -/
theorem validate_token_isError_eq (env : ValidateEnv) (tok : String) :
    exceptIsError (validate_token env tok).fst =
      (!(stripBearer tok == "") && keyRetrievalFails env.net) := by
  unfold validate_token
  by_cases hempty : stripBearer tok = ""
  · simp [hempty, exceptIsError]
  · rw [← get_openid_config_isError env.net]
    dsimp only
    rw [if_neg hempty, beq_eq_false_iff_ne.mpr hempty]
    simp only [Bool.not_false, Bool.true_and]
    rcases hcfg : get_openid_config env.net with ⟨cfgr, ctr⟩
    cases cfgr with
    | error e => rfl
    | ok config =>
        dsimp only
        cases env.parse (stripBearer tok) with
        | none => rfl
        | some td =>
            dsimp only
            cases (config.signing_keys.keys.getD []).find?
                (fun k => k.kid == td.kid) with
            | none => rfl
            | some key =>
                dsimp only
                cases jwtDecode env.now td key ["RS256"]
                    ("api://" ++ env.client_id)
                    ["https://login.microsoftonline.com/" ++ env.tenant_id ++ "/v2.0",
                     "https://sts.windows.net/" ++ env.tenant_id ++ "/"] with
                | expiredSignature => rfl
                | invalidToken m => rfl
                | ok decoded =>
                    dsimp only
                    cases decoded.oid with
                    | none => rfl
                    | some o =>
                        dsimp only
                        by_cases ho : o = "" <;> simp [ho, exceptIsError]

/-! ## Claim theorems -/

/-- C1: `validate_token` returns a non-null subject only if the token's
signature verifies (with algorithm RS256) against the signing key whose
`kid` matches the token header, the audience equals `"api://" + CLIENT_ID`,
the issuer is one of the two canonical tenant forms, and the expiry and
issued-at checks pass; and whenever key retrieval succeeds, the function
returns a value (so every mere verification failure yields a null return,
never an exception). -/
theorem C1_validate_token_acceptance :
    (∀ (env : ValidateEnv) (tok oid : String),
      (validate_token env tok).fst = .ok (some oid) →
      ∃ config td key,
        (get_openid_config env.net).fst = .ok config ∧
        env.parse (stripBearer tok) = some td ∧
        (config.signing_keys.keys.getD []).find? (fun k => k.kid == td.kid) = some key ∧
        key.kid = td.kid ∧
        td.alg = "RS256" ∧
        td.sigOk key = true ∧
        td.iatOk = true ∧
        (∀ e, td.exp = some e → env.now < e) ∧
        (∃ l, td.aud = some l ∧ ("api://" ++ env.client_id) ∈ l) ∧
        (∃ i, td.iss = some i ∧
          (i = "https://login.microsoftonline.com/" ++ env.tenant_id ++ "/v2.0" ∨
           i = "https://sts.windows.net/" ++ env.tenant_id ++ "/")) ∧
        td.oid = some oid) ∧
    (∀ (env : ValidateEnv) (tok : String) (config : OpenIdConfig) (ctr : NetTrace),
      get_openid_config env.net = (.ok config, ctr) →
      ∃ r, (validate_token env tok).fst = .ok r) := by
  constructor
  · intro env tok oid h
    obtain ⟨-, config, td, key, hcfg, hparse, hfind, hdec, hoid, -⟩ :=
      validate_token_some_inv h
    obtain ⟨-, halg, hsig, hiat, -, hexp, haud, hiss⟩ := jwtDecode_ok_inv hdec
    refine ⟨config, td, key, hcfg, hparse, hfind, ?_, ?_, hsig, hiat, ?_, haud, ?_, hoid⟩
    · have := List.find?_some hfind
      simpa using this
    · simpa using halg
    · intro e he
      exact hexp e he
    · obtain ⟨i, hi, hmem⟩ := hiss
      refine ⟨i, hi, ?_⟩
      simpa using hmem
  · intro env tok config ctr hcfg
    apply exceptIsError_false
    rw [validate_token_isError_eq, ← get_openid_config_isError env.net, hcfg]
    simp [exceptIsError]

/-- Witness for C1: a concrete accepted token, with the acceptance
conditions recovered by the theorem. -/
theorem C1_witness :
    (validate_token envW "Bearer tok1").fst = .ok (some "user-oid-1") ∧
    (∃ config td key,
      (get_openid_config envW.net).fst = .ok config ∧
      envW.parse (stripBearer "Bearer tok1") = some td ∧
      (config.signing_keys.keys.getD []).find? (fun k => k.kid == td.kid) = some key ∧
      key.kid = td.kid ∧
      td.alg = "RS256" ∧
      td.sigOk key = true ∧
      td.iatOk = true ∧
      (∀ e, td.exp = some e → envW.now < e) ∧
      (∃ l, td.aud = some l ∧ ("api://" ++ envW.client_id) ∈ l) ∧
      (∃ i, td.iss = some i ∧
        (i = "https://login.microsoftonline.com/" ++ envW.tenant_id ++ "/v2.0" ∨
         i = "https://sts.windows.net/" ++ envW.tenant_id ++ "/")) ∧
      td.oid = some "user-oid-1") :=
  ⟨by decide, C1_validate_token_acceptance.1 envW "Bearer tok1" "user-oid-1" (by decide)⟩

/-- C4: `validate_token` raises exactly when the stripped token is
non-empty and signing-key retrieval fails (discovery or JWKS HTTP failure,
or a discovery document lacking `jwks_uri`, per `keyRetrievalFails`); the
error type `TokenValidationError` is forced by the result type of
`validate_token`.  For every merely invalid or untrusted token (key
retrieval succeeding) the result is a returned value, not an exception. -/
theorem C4_raises_exactly_on_key_retrieval_failure :
    ∀ (env : ValidateEnv) (tok : String),
      exceptIsError (validate_token env tok).fst =
        (!(stripBearer tok == "") && keyRetrievalFails env.net) :=
  validate_token_isError_eq

/-- C2: the orchestrator returns `(None, None)` without raising when the
validator returns null; on validation success it invokes the exchanger
with the original authorization header and the requested scopes,
propagating `OboTokenError` unchanged and returning
`(oid, downstream token)` on success; and the exchanger is invoked only
when the validator returned a non-null subject for that header. -/
theorem C2_orchestrator_composition :
    ∀ (env : ValidateEnv) (msal : MsalEnv) (hdr : String) (scopes : List String),
      ((validate_token env hdr).fst = .ok none →
        validate_and_get_obo_token env msal hdr scopes =
          ⟨.ok (none, none), (validate_token env hdr).snd, false, ⟨0, 0⟩⟩) ∧
      (∀ oid, (validate_token env hdr).fst = .ok (some oid) →
        (validate_and_get_obo_token env msal hdr scopes).exchangerInvoked = true ∧
        (∀ e, (get_obo_token msal hdr scopes).fst = .error e →
          (validate_and_get_obo_token env msal hdr scopes).result = .error (.obo e)) ∧
        (∀ rt, (get_obo_token msal hdr scopes).fst = .ok rt →
          (validate_and_get_obo_token env msal hdr scopes).result =
            .ok (some oid, some rt))) ∧
      ((validate_and_get_obo_token env msal hdr scopes).exchangerInvoked = true →
        ∃ oid, (validate_token env hdr).fst = .ok (some oid)) := by
  intro env msal hdr scopes
  unfold validate_and_get_obo_token
  rcases hv : validate_token env hdr with ⟨vr, vtr⟩
  rcases ho : get_obo_token msal hdr scopes with ⟨gr, gtr⟩
  refine ⟨?_, ?_, ?_⟩
  · intro h
    simp only at h
    subst h
    rfl
  · intro oid h
    simp only at h
    subst h
    dsimp only
    cases gr with
    | error e =>
        refine ⟨rfl, ?_, ?_⟩
        · intro e' he
          rw [Except.error.inj he]
        · intro rt hrt
          exact absurd hrt (by simp)
    | ok rt =>
        refine ⟨rfl, ?_, ?_⟩
        · intro e' he
          exact absurd he (by simp)
        · intro rt' hrt
          rw [Except.ok.inj hrt]
  · intro hinv
    cases vr with
    | error e => exact absurd hinv (by simp)
    | ok o =>
        cases o with
        | none => exact absurd hinv (by simp)
        | some oid => exact ⟨oid, rfl⟩

/-- Witness for C2: with the concrete accepted token and exchanger, the
orchestrator returns the pair and did invoke the exchanger. -/
theorem C2_witness :
    (validate_token envW "Bearer tok1").fst = .ok (some "user-oid-1") ∧
    (get_obo_token msalW "Bearer tok1" ["scope-a"]).fst = .ok "downstream-token" ∧
    (validate_and_get_obo_token envW msalW "Bearer tok1" ["scope-a"]).exchangerInvoked
      = true ∧
    (validate_and_get_obo_token envW msalW "Bearer tok1" ["scope-a"]).result =
      .ok (some "user-oid-1", some "downstream-token") := by
  have h := (C2_orchestrator_composition envW msalW "Bearer tok1" ["scope-a"]).2.1
    "user-oid-1" (by decide)
  exact ⟨by decide, by decide, h.1, h.2.2 "downstream-token" (by decide)⟩

/-- C5: `get_obo_token` with an empty stripped token or empty scopes fails
with `OboTokenError` before any MSAL client construction or network call. -/
theorem C5_get_obo_token_failfast :
    ∀ (msal : MsalEnv) (user_token : String) (scopes : List String),
      stripBearer user_token = "" ∨ scopes = [] →
      (∃ e, (get_obo_token msal user_token scopes).fst = .error e) ∧
      (get_obo_token msal user_token scopes).snd = ⟨0, 0⟩ := by
  intro msal user_token scopes h
  unfold get_obo_token
  by_cases ht : stripBearer user_token = ""
  · simp [ht]
  · have hs : scopes = [] := h.resolve_left ht
    simp [ht, hs]

/-- Witness for C5: a whitespace-only bearer token and an empty scope list
are each rejected with no client construction and no network call. -/
theorem C5_witness :
    ((stripBearer "Bearer    " = "" ∨ (["scope-a"] : List String) = []) ∧
      (∃ e, (get_obo_token msalW "Bearer    " ["scope-a"]).fst = .error e) ∧
      (get_obo_token msalW "Bearer    " ["scope-a"]).snd = ⟨0, 0⟩) ∧
    ((stripBearer "Bearer tok1" = "" ∨ ([] : List String) = []) ∧
      (∃ e, (get_obo_token msalW "Bearer tok1" []).fst = .error e) ∧
      (get_obo_token msalW "Bearer tok1" []).snd = ⟨0, 0⟩) :=
  ⟨⟨Or.inl (by decide), C5_get_obo_token_failfast msalW "Bearer    " ["scope-a"]
      (Or.inl (by decide))⟩,
   ⟨Or.inr rfl, C5_get_obo_token_failfast msalW "Bearer tok1" [] (Or.inr rfl)⟩⟩

/-- C6: `get_obo_token` fails only with `OboTokenError` (exceptions from the
client construction and the acquire call are wrapped); a response lacking
`access_token` produces the provider's `error_description` (or
`"Unknown error"` when absent) in the raised error; success returns the
access token from the response. -/
theorem C6_get_obo_token_error_contract :
    ∀ (msal : MsalEnv) (user_token : String) (scopes : List String),
      (∀ a, (get_obo_token msal user_token scopes).fst = .ok a →
        ∃ errdesc, msal.acquire (stripBearer user_token) scopes =
          .returns (some a) errdesc) ∧
      (stripBearer user_token ≠ "" → scopes ≠ [] →
        (∀ e, msal.construct = .error e →
          (get_obo_token msal user_token scopes).fst =
            .error ⟨"Failed to acquire OBO token: " ++ e⟩) ∧
        (msal.construct = .ok () →
          (∀ errdesc, msal.acquire (stripBearer user_token) scopes =
              .returns none errdesc →
            (get_obo_token msal user_token scopes).fst =
              .error ⟨"Failed to acquire OBO token: " ++ errdesc.getD "Unknown error"⟩) ∧
          (∀ e, msal.acquire (stripBearer user_token) scopes = .raises e →
            (get_obo_token msal user_token scopes).fst =
              .error ⟨"Failed to acquire OBO token: " ++ e⟩))) := by
  intro msal user_token scopes
  unfold get_obo_token
  by_cases ht : stripBearer user_token = ""
  · refine ⟨?_, ?_⟩
    · intro a ha
      rw [if_pos ht] at ha
      exact absurd ha (by simp)
    · intro ht' _
      exact absurd ht ht'
  · rw [if_neg ht]
    by_cases hs : scopes = []
    · refine ⟨?_, ?_⟩
      · intro a ha
        rw [if_pos hs] at ha
        exact absurd ha (by simp)
      · intro _ hs'
        exact absurd hs hs'
    · rw [if_neg hs]
      rcases hc : msal.construct with e | u
      · refine ⟨?_, ?_⟩
        · intro a ha
          exact absurd ha (by simp)
        · intro _ _
          refine ⟨fun e' he => ?_, fun hok => absurd hok (by simp)⟩
          rw [Except.error.inj he]
      · cases u
        rcases hacq : msal.acquire (stripBearer user_token) scopes with e | ⟨at_, ed⟩
        · refine ⟨?_, ?_⟩
          · intro a ha
            exact absurd ha (by simp)
          · intro _ _
            refine ⟨fun e' he => absurd he (by simp),
              fun _ => ⟨fun ed' hed => absurd hed (by simp), fun e' he => ?_⟩⟩
            rw [MsalResult.raises.inj he]
        · cases at_ with
          | none =>
              refine ⟨?_, ?_⟩
              · intro a ha
                exact absurd ha (by simp)
              · intro _ _
                refine ⟨fun e' he => absurd he (by simp),
                  fun _ => ⟨fun ed' hed => ?_,
                    fun e' he => absurd he (by simp)⟩⟩
                obtain ⟨-, hed2⟩ := MsalResult.returns.inj hed
                rw [← hed2]
          | some a =>
              refine ⟨?_, ?_⟩
              · intro a' ha
                exact ⟨ed, by rw [Except.ok.inj ha]⟩
              · intro _ _
                refine ⟨fun e' he => absurd he (by simp),
                  fun _ => ⟨fun ed' hed =>
                    absurd (MsalResult.returns.inj hed).1 (by simp),
                    fun e' he => absurd he (by simp)⟩⟩

/-- Witness for C6: a provider response lacking `access_token` with an
`error_description` surfaces that description in the `OboTokenError`. -/
theorem C6_witness :
    (∃ errdesc, msalW.acquire (stripBearer "Bearer tok1") ["scope-a"] =
      .returns (some "downstream-token") errdesc) ∧
    (stripBearer "Bearer tok2" ≠ "" ∧
      msalFailsC6.acquire (stripBearer "Bearer tok2") ["scope-a"] =
        .returns none (some "consent required") ∧
      (get_obo_token msalFailsC6 "Bearer tok2" ["scope-a"]).fst =
        .error ⟨"Failed to acquire OBO token: consent required"⟩) :=
  ⟨(C6_get_obo_token_error_contract msalW "Bearer tok1" ["scope-a"]).1
      "downstream-token" (by decide),
   ⟨by decide, rfl,
    (((C6_get_obo_token_error_contract msalFailsC6 "Bearer tok2" ["scope-a"]).2
        (by decide) (by decide)).2 rfl).1 (some "consent required") rfl⟩⟩

/-- C7: a token whose header `kid` matches no key in the retrieved key set
makes `validate_token` return null (never an exception). -/
theorem C7_unmatched_kid_returns_null :
    ∀ (env : ValidateEnv) (tok : String) (config : OpenIdConfig) (ctr : NetTrace)
      (td : TokenData),
      get_openid_config env.net = (.ok config, ctr) →
      env.parse (stripBearer tok) = some td →
      (config.signing_keys.keys.getD []).find? (fun k => k.kid == td.kid) = none →
      (validate_token env tok).fst = .ok none := by
  intro env tok config ctr td hcfg hparse hfind
  unfold validate_token
  dsimp only
  by_cases hempty : stripBearer tok = ""
  · rw [if_pos hempty]
  · rw [if_neg hempty, hcfg]
    dsimp only
    rw [hparse]
    dsimp only
    rw [hfind]

/-- Witness for C7: a key set containing only kid `"k2"` rejects the token
signed under kid `"k1"` with a null return. -/
theorem C7_witness :
    get_openid_config envC7.net =
      (.ok ⟨⟨some "https://jwks.example"⟩, ⟨some [⟨some "k2"⟩]⟩⟩, ⟨1, 1⟩) ∧
    envC7.parse (stripBearer "Bearer tok1") = some tdW ∧
    ((⟨some [⟨some "k2"⟩]⟩ : JwksDoc).keys.getD []).find?
      (fun k => k.kid == tdW.kid) = none ∧
    (validate_token envC7 "Bearer tok1").fst = .ok none :=
  ⟨by decide, rfl, by decide,
   C7_unmatched_kid_returns_null envC7 "Bearer tok1"
     ⟨⟨some "https://jwks.example"⟩, ⟨some [⟨some "k2"⟩]⟩⟩ ⟨1, 1⟩ tdW
     (by decide) rfl (by decide)⟩

/-- C3 counterexample: the embedded module holds no cache state, so
`validate_token` is a pure function of its environment; a first successful
call performs one discovery fetch and one JWKS fetch, and a subsequent call
on the same process state is the identical computation, whose trace again
contains those fetches instead of the zero further fetches the claim
demands. -/
theorem C3_counterexample :
    (validate_token envW "Bearer tok1").fst = .ok (some "user-oid-1") ∧
    (validate_token envW "Bearer tok1").snd = ⟨1, 1⟩ ∧
    ¬ (validate_token envW "Bearer tok1").snd = ⟨0, 0⟩ := by decide

/-- C3 (amended): identity-provider metadata and signing keys are not
cached at all — every `validate_token` call with a non-empty stripped token
performs a fresh key retrieval, whose trace always contains exactly one
discovery fetch. -/
theorem C3_amended_refetch_every_call :
    ∀ (env : ValidateEnv) (tok : String),
      stripBearer tok ≠ "" →
      (validate_token env tok).snd = (get_openid_config env.net).snd ∧
      (get_openid_config env.net).snd.discoveryFetches = 1 := by
  intro env tok h
  constructor
  · unfold validate_token
    dsimp only
    rw [if_neg h]
    rcases hcfg : get_openid_config env.net with ⟨cfgr, ctr⟩
    cases cfgr with
    | error e => rfl
    | ok config =>
        dsimp only
        cases env.parse (stripBearer tok) with
        | none => rfl
        | some td =>
            dsimp only
            cases (config.signing_keys.keys.getD []).find?
                (fun k => k.kid == td.kid) with
            | none => rfl
            | some key =>
                dsimp only
                cases jwtDecode env.now td key ["RS256"]
                    ("api://" ++ env.client_id)
                    ["https://login.microsoftonline.com/" ++ env.tenant_id ++ "/v2.0",
                     "https://sts.windows.net/" ++ env.tenant_id ++ "/"] with
                | expiredSignature => rfl
                | invalidToken m => rfl
                | ok decoded =>
                    dsimp only
                    cases decoded.oid with
                    | none => rfl
                    | some o =>
                        dsimp only
                        by_cases ho : o = "" <;> simp [ho]
  · unfold get_openid_config
    cases net : env.net.discovery with
    | failure e => rfl
    | success doc =>
        dsimp only
        cases doc.jwks_uri with
        | none => rfl
        | some uri =>
            dsimp only
            cases env.net.jwks uri <;> rfl

/-- Witness for the amended C3: the concrete successful call refetches. -/
theorem C3_amended_witness :
    stripBearer "Bearer tok1" ≠ "" ∧
    ((validate_token envW "Bearer tok1").snd = (get_openid_config envW.net).snd ∧
      (get_openid_config envW.net).snd.discoveryFetches = 1) :=
  ⟨by decide, C3_amended_refetch_every_call envW "Bearer tok1" (by decide)⟩

/-- C8 counterexample: `tdC8` carries an `oid` claim (the empty string) and
passes every verification step (the decode succeeds), yet `validate_token`
returns null instead of that `oid` value, because the code's Python falsy
check `if not oid` conflates the empty string with a missing claim. -/
theorem C8_counterexample :
    tdC8.oid = some "" ∧
    jwtDecode envC8.now tdC8 ⟨some "k1"⟩ ["RS256"] ("api://" ++ envC8.client_id)
      ["https://login.microsoftonline.com/" ++ envC8.tenant_id ++ "/v2.0",
       "https://sts.windows.net/" ++ envC8.tenant_id ++ "/"] = .ok tdC8 ∧
    (validate_token envC8 "Bearer tok8").fst = .ok none :=
  ⟨rfl, rfl, by decide⟩

/-- C8 (amended): for a fully verified token, `validate_token` returns the
`oid` claim when it is present and non-empty, and null when the claim is
absent or the empty string (Python's falsy check). -/
theorem C8_amended_roundtrip :
    ∀ (env : ValidateEnv) (tok : String) (config : OpenIdConfig) (ctr : NetTrace)
      (td : TokenData) (key : Jwk),
      stripBearer tok ≠ "" →
      get_openid_config env.net = (.ok config, ctr) →
      env.parse (stripBearer tok) = some td →
      (config.signing_keys.keys.getD []).find? (fun k => k.kid == td.kid) = some key →
      jwtDecode env.now td key ["RS256"] ("api://" ++ env.client_id)
        ["https://login.microsoftonline.com/" ++ env.tenant_id ++ "/v2.0",
         "https://sts.windows.net/" ++ env.tenant_id ++ "/"] = .ok td →
      (validate_token env tok).fst = .ok (oidResult td.oid) := by
  intro env tok config ctr td key hempty hcfg hparse hfind hdec
  unfold validate_token
  dsimp only
  rw [if_neg hempty, hcfg]
  dsimp only
  rw [hparse]
  dsimp only
  rw [hfind]
  dsimp only
  rw [hdec]
  dsimp only
  unfold oidResult
  cases td.oid with
  | none => rfl
  | some o =>
      dsimp only
      by_cases ho : o = "" <;> simp [ho]

/-- Witness for the amended C8: the concrete accepted token's non-empty
`oid` comes back verbatim. -/
theorem C8_amended_witness :
    (stripBearer "Bearer tok1" ≠ "" ∧ tdW.oid = some "user-oid-1") ∧
    (validate_token envW "Bearer tok1").fst = .ok (oidResult tdW.oid) :=
  ⟨⟨by decide, rfl⟩,
   C8_amended_roundtrip envW "Bearer tok1"
     ⟨⟨some "https://jwks.example"⟩, ⟨some [⟨some "k1"⟩]⟩⟩ ⟨1, 1⟩ tdW ⟨some "k1"⟩
     (by decide) (by decide) rfl (by decide) rfl⟩

/-- C9: a container name outside {Finance, HR, Sales} makes
`query_data_on_behalf_of_user` return the exact error string immediately,
with an empty trace: no validation, no exchange, no downstream POST. -/
theorem C9_invalid_container_immediate :
    ∀ (qenv : QueryEnv) (container : String) (query : Option String)
      (bearer_token : Option String),
      ¬ container ∈ ["Finance", "HR", "Sales"] →
      query_data_on_behalf_of_user qenv container query bearer_token =
        (.ok (.str ("Error: Invalid container '" ++ container ++
          "'. Must be one of: Finance, HR, Sales")), QueryTrace.none) := by
  intro qenv container query bt h
  unfold query_data_on_behalf_of_user
  rw [if_pos h]

/-- Witness for C9: `container="Legal"` yields the exact error string and
the empty trace. -/
theorem C9_witness :
    (¬ "Legal" ∈ ["Finance", "HR", "Sales"]) ∧
    query_data_on_behalf_of_user qenvW "Legal" none (some "Bearer tok1") =
      (.ok (.str "Error: Invalid container 'Legal'. Must be one of: Finance, HR, Sales"),
       QueryTrace.none) :=
  ⟨by decide,
   C9_invalid_container_immediate qenvW "Legal" none (some "Bearer tok1") (by decide)⟩

/-- C10: with a valid container and `bearer_token = None` the tool falls
back to the module-global header last stored by `set_auth_header`; if that
is also `None` it returns the `success: False` dict (not the plain string
used for invalid containers) with no validation, exchange or network
call. -/
theorem C10_global_header_fallback :
    ∀ (qenv : QueryEnv) (container : String) (query : Option String),
      (query_data_on_behalf_of_user qenv container query none =
        query_data_on_behalf_of_user qenv container query qenv.global_auth_header) ∧
      (∀ h, query_data_on_behalf_of_user
          { qenv with global_auth_header := set_auth_header h qenv.global_auth_header }
          container query none =
        query_data_on_behalf_of_user qenv container query (some h)) ∧
      (container ∈ ["Finance", "HR", "Sales"] → qenv.global_auth_header = none →
        query_data_on_behalf_of_user qenv container query none =
          (.ok (.err "No authentication token provided"), QueryTrace.none)) := by
  intro qenv container query
  refine ⟨?_, ?_, ?_⟩
  · unfold query_data_on_behalf_of_user
    cases qenv.global_auth_header <;> rfl
  · intro h
    rfl
  · intro hc hg
    unfold query_data_on_behalf_of_user
    rw [if_neg (not_not_intro hc)]
    dsimp only
    rw [hg]

/-- Witness for C10: valid container `"HR"`, no bearer token, no global
header — the dict-shaped failure with an empty trace. -/
theorem C10_witness :
    ("HR" ∈ ["Finance", "HR", "Sales"] ∧ qenvW.global_auth_header = none) ∧
    query_data_on_behalf_of_user qenvW "HR" none none =
      (.ok (.err "No authentication token provided"), QueryTrace.none) :=
  ⟨⟨by decide, rfl⟩,
   (C10_global_header_fallback qenvW "HR" none).2.2 (by decide) rfl⟩

end FoundryObo
